import Mathlib

/-!
Verification development for the world-covers-api temporal identity model
(src/common/models.py), its permission layer (src/common/views.py), the
serializer name resolution (src/common/serializers.py) and the auth restore
command (src/common/management/commands/restore_auth.py).

Dates are modelled as natural numbers (day ordinals); Django `DateField`
comparisons become Nat comparisons.  Nullable columns become `Option`.
Decimal coordinate columns become `Option Int` (a fixed-point scaling of the
decimal value); Python truthiness of a Decimal is `x ≠ 0`.
Querysets become Lists kept in storage order; `.first()` under a Meta
ordering becomes selection of the extremal element for that ordering (ties
resolved to the first stored row, refining the arbitrary tie order of the
database).
-/

namespace WoCo

/-- Models Django `queryset.first()` under an ascending single-key ordering:
returns the stored element with the minimal key (the first such element in
storage order when keys tie). -/
def firstMinBy {α : Type} (key : α → Nat) : List α → Option α
  | [] => none
  | x :: xs => some (xs.foldl (fun b a => if key a < key b then a else b) x)

/-- Models Django `queryset.first()` under a descending single-key ordering:
returns the stored element with the maximal key (the first such element in
storage order when keys tie). -/
def firstMaxBy {α : Type} (key : α → Nat) : List α → Option α
  | [] => none
  | x :: xs => some (xs.foldl (fun b a => if key b < key a then a else b) x)

/-- The date-interval filter of `get_identity_at_date` (models.py lines
88-91 and 213-216): `effective_from_date__lte=d` AND
(`effective_to_date__isnull=True` OR `effective_to_date__gt=d`). -/
def matchesDate (fromD : Nat) (toD : Option Nat) (d : Nat) : Bool :=
  decide (fromD ≤ d) &&
    (match toD with
     | none => true
     | some t => decide (d < t))

-- ========== DATA MODEL (models.py) ==========

/-- models.py `PostalFacility` (stable pointer; lines 45-97). -/
structure PostalFacility where
  postal_facility_id : Nat
  reference_code : String
  latitude : Option Int
  longitude : Option Int
  deriving Repr, DecidableEq

/-- models.py `PostalFacilityIdentity` (temporal identity; lines 100-180).
Only the fields the claims touch are carried. -/
structure PostalFacilityIdentity where
  postal_facility_identity_id : Nat
  postal_facility_id : Nat
  effective_from_date : Nat
  effective_to_date : Option Nat
  facility_name : String
  latitude : Option Int
  longitude : Option Int
  deriving Repr, DecidableEq

/-- models.py `AdministrativeUnit` (stable pointer; lines 183-222). -/
structure AdministrativeUnit where
  administrative_unit_id : Nat
  reference_code : String
  deriving Repr, DecidableEq

/-- models.py `AdministrativeUnitIdentity` (lines 225-308). -/
structure AdministrativeUnitIdentity where
  administrative_unit_identity_id : Nat
  administrative_unit_id : Nat
  effective_from_date : Nat
  effective_to_date : Option Nat
  unit_name : String
  deriving Repr, DecidableEq

/-- models.py `AdministrativeUnitResponsibility` (lines 311-354). -/
structure AdministrativeUnitResponsibility where
  administrative_unit_responsibility_id : Nat
  administrative_unit_id : Nat
  group_id : Nat
  is_active : Bool
  deriving Repr, DecidableEq

/-- models.py `JurisdictionalAffiliation` (lines 357-406). -/
structure JurisdictionalAffiliation where
  jurisdictional_affiliation_id : Nat
  postal_facility_identity_id : Nat
  administrative_unit_id : Nat
  effective_from_date : Nat
  effective_to_date : Option Nat
  deriving Repr, DecidableEq

/-- models.py `Postmark` (lines 493-589); only the facility-identity key is
relevant to the claims. -/
structure Postmark where
  postmark_id : Nat
  postal_facility_identity_id : Nat
  deriving Repr, DecidableEq

/-- The relational store the resolvers read: each table as a list of rows in
storage order. -/
structure DB where
  facilityIdentities : List PostalFacilityIdentity
  unitIdentities : List AdministrativeUnitIdentity
  affiliations : List JurisdictionalAffiliation
  responsibilities : List AdministrativeUnitResponsibility
  deriving Repr, DecidableEq

/-- The related manager `facility.identities` -/
def PostalFacility.identities (f : PostalFacility) (db : DB) :
    List PostalFacilityIdentity :=
  db.facilityIdentities.filter
    (fun i => i.postal_facility_id == f.postal_facility_id)

/-- models.py lines 82-84: `identities.filter(effective_to_date__isnull=True)
.first()` under `PostalFacilityIdentity.Meta.ordering =
['postal_facility', 'effective_from_date']` (ascending). -/
def PostalFacility.get_current_identity (f : PostalFacility) (db : DB) :
    Option PostalFacilityIdentity :=
  firstMinBy (fun i => i.effective_from_date)
    ((f.identities db).filter (fun i => i.effective_to_date.isNone))

/-- models.py lines 86-91: date filter then `.first()` under the ascending
`effective_from_date` Meta ordering. -/
def PostalFacility.get_identity_at_date (f : PostalFacility) (db : DB)
    (target_date : Nat) : Option PostalFacilityIdentity :=
  firstMinBy (fun i => i.effective_from_date)
    ((f.identities db).filter
      (fun i => matchesDate i.effective_from_date i.effective_to_date target_date))

/-- The related manager `unit.identities` -/
def AdministrativeUnit.identities (u : AdministrativeUnit) (db : DB) :
    List AdministrativeUnitIdentity :=
  db.unitIdentities.filter
    (fun i => i.administrative_unit_id == u.administrative_unit_id)

/-- models.py lines 207-209: `.first()` under
`AdministrativeUnitIdentity.Meta.ordering = ['administrative_unit',
'-effective_from_date']` (descending `effective_from_date`). -/
def AdministrativeUnit.get_current_identity (u : AdministrativeUnit) (db : DB) :
    Option AdministrativeUnitIdentity :=
  firstMaxBy (fun i => i.effective_from_date)
    ((u.identities db).filter (fun i => i.effective_to_date.isNone))

/-- models.py lines 211-216: date filter then `.first()` under the
descending `effective_from_date` Meta ordering. -/
def AdministrativeUnit.get_identity_at_date (u : AdministrativeUnit) (db : DB)
    (target_date : Nat) : Option AdministrativeUnitIdentity :=
  firstMaxBy (fun i => i.effective_from_date)
    ((u.identities db).filter
      (fun i => matchesDate i.effective_from_date i.effective_to_date target_date))

/-- models.py lines 398-400: resolve the governed unit's identity at the
affiliation's own `effective_from_date`.  The FK target is reconstructed
from its id (only the id takes part in the query). -/
def JurisdictionalAffiliation.get_administrative_unit_identity
    (a : JurisdictionalAffiliation) (u : AdministrativeUnit) (db : DB) :
    Option AdministrativeUnitIdentity :=
  u.get_identity_at_date db a.effective_from_date

/-- serializers.py lines 93-95: the current-mode name lookup on a
responsibility row - the unit's current identity name, falling back to the
reference code. -/
def AdministrativeUnitResponsibilitySerializer.get_administrative_unit_name
    (u : AdministrativeUnit) (db : DB) : String :=
  match u.get_current_identity db with
  | some identity => identity.unit_name
  | none => u.reference_code

/-- models.py lines 573-575: the local `affiliations` queryset of
`Postmark.get_responsible_groups`: the facility identity's affiliations
filtered by exactly `Q(effective_to_date__isnull=True) |
Q(effective_to_date__gte=Now())` - the source applies no condition on
`effective_from_date`. -/
def Postmark.current_affiliations (p : Postmark) (db : DB) (now : Nat) :
    List JurisdictionalAffiliation :=
  db.affiliations.filter
    (fun a =>
      a.postal_facility_identity_id == p.postal_facility_identity_id &&
      (match a.effective_to_date with
       | none => true
       | some t => decide (now ≤ t)))

/-- models.py lines 570-586: `Postmark.get_responsible_groups`.
Groups are returned one per matching active responsibility row
(group ids in our model). -/
def Postmark.get_responsible_groups (p : Postmark) (db : DB) (now : Nat) :
    List Nat :=
  let affiliations := p.current_affiliations db now
  let admin_units := affiliations.map (fun a => a.administrative_unit_id)
  let responsibilities := db.responsibilities.filter
    (fun r => admin_units.contains r.administrative_unit_id && r.is_active)
  responsibilities.map (fun r => r.group_id)

/-- models.py lines 173-177: Python truthiness of a Decimal column value:
None and zero are falsy. -/
def decimalTruthy : Option Int → Bool
  | none => false
  | some x => x != 0

/-- models.py lines 173-177: use the identity's own coordinates when both
are truthy, otherwise fall back to the parent facility's. -/
def PostalFacilityIdentity.get_coordinates (i : PostalFacilityIdentity)
    (f : PostalFacility) : Option Int × Option Int :=
  if decimalTruthy i.latitude && decimalTruthy i.longitude then
    (i.latitude, i.longitude)
  else
    (f.latitude, f.longitude)

-- ========== PERMISSIONS (views.py) ==========

/-- HTTP request methods reaching `has_object_permission`. -/
inductive HttpMethod
  | get | head | options | post | put | patch | delete
  deriving Repr, DecidableEq

/-- views.py line 49: `request.method in ['GET', 'HEAD', 'OPTIONS']`. -/
def isReadMethod (m : HttpMethod) : Bool :=
  m == .get || m == .head || m == .options

/-- The request principal: authentication flag and group memberships
(`request.user.groups.all()` as group ids). -/
structure RequestUser where
  is_authenticated : Bool
  groups : List Nat
  deriving Repr, DecidableEq

/-- The object argument of `has_object_permission`: either a `Postmark`
(the `isinstance(obj, Postmark)` branch) or any other model instance. -/
inductive ApiObject
  | postmark (p : Postmark)
  | other
  deriving Repr, DecidableEq

/-- views.py lines 43-59: `IsResponsibleForRegion.has_object_permission`.
Reads are always allowed; a mutation on a `Postmark` requires some user
group to appear in `get_responsible_groups`; anything else requires
authentication. -/
def IsResponsibleForRegion.has_object_permission (method : HttpMethod)
    (user : RequestUser) (obj : ApiObject) (db : DB) (now : Nat) : Bool :=
  if isReadMethod method then
    true
  else
    match obj with
    | .postmark p =>
      let responsible_groups := p.get_responsible_groups db now
      user.groups.any (fun g => responsible_groups.contains g)
    | .other => user.is_authenticated

-- ========== AUTH RESTORE COMMAND (restore_auth.py) ==========

/-- A write to the auth store performed by the restore command: one imported
row of the groups, users or email-addresses file (identified by a numeric
key of the row). -/
inductive AuthEvent
  | groupRow (g : Nat)
  | userRow (u : Nat)
  | emailRow (e : Nat)
  deriving Repr, DecidableEq

/-- The auth store, as the sequence of row writes committed to it. -/
abbrev Store := List AuthEvent

/-- One row of an import file: its key and whether the row imports cleanly
(`ok = false` marks a row that raises a row error). -/
structure ImportRow where
  val : Nat
  ok : Bool
  deriving Repr, DecidableEq

/-- django-import-export `Resource.import_data` as invoked inside the
command's `transaction.atomic` block: row errors are collected rather than
raised, a dataset with any row error is rolled back to its savepoint (it
contributes nothing), an error-free dataset persists all its rows in file
order, and a dry run never persists.  Returns the resulting store and
`result.has_errors()`. -/
def import_data (apply : Nat → AuthEvent) (rows : List ImportRow)
    (dry_run : Bool) (s : Store) : Store × Bool :=
  let hasErrors := rows.any (fun r => !r.ok)
  if dry_run || hasErrors then
    (s, hasErrors)
  else
    (rows.foldl (fun st r => st ++ [apply r.val]) s, false)

/-- restore_auth.py lines 119-142: the email-addresses phase (optional,
after users). -/
def handleEmailsPhase (dry_run : Bool) (emailRows : Option (List ImportRow))
    (s : Store) : Store :=
  match emailRows with
  | none => s
  | some rows =>
    let res := import_data AuthEvent.emailRow rows dry_run s
    res.1

/-- restore_auth.py lines 103-142: the users phase (required) followed by
the email phase; on user import errors the command returns early only in
dry-run mode. -/
def handleUsersPhase (dry_run : Bool) (userRows : List ImportRow)
    (emailRows : Option (List ImportRow)) (s : Store) : Store :=
  let res := import_data AuthEvent.userRow userRows dry_run s
  if res.2 && dry_run then
    res.1
  else
    handleEmailsPhase dry_run emailRows res.1

/-- restore_auth.py lines 66-151: `Command.handle`, wrapped in
`transaction.atomic`.  Groups first (if a path was given), then users, then
email addresses; import errors abort the run only under `--dry-run`, and no
exception is raised on row errors, so the surrounding transaction commits
whatever the import layer persisted. -/
def Command.handle (dry_run : Bool) (groupRows : Option (List ImportRow))
    (userRows : List ImportRow) (emailRows : Option (List ImportRow))
    (s : Store) : Store :=
  match groupRows with
  | none => handleUsersPhase dry_run userRows emailRows s
  | some rows =>
    let res := import_data AuthEvent.groupRow rows dry_run s
    if res.2 && dry_run then
      res.1
    else
      handleUsersPhase dry_run userRows emailRows res.1

-- ========== STATE-CHANGE OPERATIONS (for the frame claim) ==========

/-- Update a facility identity's descriptive `facility_name` field in
place (the mutation a PATCH on `PostalFacilityIdentityViewSet` performs). -/
def renameFacilityIdentity (db : DB) (identityId : Nat) (newName : String) :
    DB :=
  { db with
    facilityIdentities := db.facilityIdentities.map
      (fun i =>
        if i.postal_facility_identity_id == identityId then
          { i with facility_name := newName }
        else i) }

/-- Replace the `JurisdictionalAffiliations` table contents (covers adding,
deleting or modifying affiliation rows). -/
def setAffiliations (db : DB) (l : List JurisdictionalAffiliation) : DB :=
  { db with affiliations := l }

-- ========== HELPER LEMMAS ==========

/-- The fold inside `firstMinBy` yields an element of the candidate list
whose key is a lower bound for every candidate's key. -/
theorem foldlMin_spec {α : Type} (key : α → Nat) (xs : List α) : ∀ (x : α),
    xs.foldl (fun b a => if key a < key b then a else b) x ∈ x :: xs ∧
    ∀ a ∈ x :: xs,
      key (xs.foldl (fun b a => if key a < key b then a else b) x) ≤ key a := by
  induction xs with
  | nil =>
    intro x
    refine ⟨List.mem_singleton.mpr rfl, ?_⟩
    intro a ha
    simp only [List.foldl_nil]
    rw [List.mem_singleton.mp ha]
  | cons y ys ih =>
    intro x
    by_cases hk : key y < key x
    · simp only [List.foldl_cons, if_pos hk]
      have h := ih y
      constructor
      · rcases List.mem_cons.mp h.1 with h1 | h1
        · rw [h1]
          exact List.mem_cons_of_mem _ (List.mem_cons_self _ _)
        · exact List.mem_cons_of_mem _ (List.mem_cons_of_mem _ h1)
      · intro a ha
        rcases List.mem_cons.mp ha with rfl | ha'
        · exact le_trans (h.2 y (List.mem_cons_self _ _)) (le_of_lt hk)
        · exact h.2 a ha'
    · simp only [List.foldl_cons, if_neg hk]
      have h := ih x
      constructor
      · rcases List.mem_cons.mp h.1 with h1 | h1
        · rw [h1]
          exact List.mem_cons_self _ _
        · exact List.mem_cons_of_mem _ (List.mem_cons_of_mem _ h1)
      · intro a ha
        rcases List.mem_cons.mp ha with rfl | ha'
        · exact h.2 a (List.mem_cons_self _ _)
        · rcases List.mem_cons.mp ha' with rfl | ha''
          · exact le_trans (h.2 x (List.mem_cons_self _ _)) (le_of_not_lt hk)
          · exact h.2 a (List.mem_cons_of_mem _ ha'')

/-- The fold inside `firstMaxBy` yields an element of the candidate list
whose key is an upper bound for every candidate's key. -/
theorem foldlMax_spec {α : Type} (key : α → Nat) (xs : List α) : ∀ (x : α),
    xs.foldl (fun b a => if key b < key a then a else b) x ∈ x :: xs ∧
    ∀ a ∈ x :: xs,
      key a ≤ key (xs.foldl (fun b a => if key b < key a then a else b) x) := by
  induction xs with
  | nil =>
    intro x
    refine ⟨List.mem_singleton.mpr rfl, ?_⟩
    intro a ha
    simp only [List.foldl_nil]
    rw [List.mem_singleton.mp ha]
  | cons y ys ih =>
    intro x
    by_cases hk : key x < key y
    · simp only [List.foldl_cons, if_pos hk]
      have h := ih y
      constructor
      · rcases List.mem_cons.mp h.1 with h1 | h1
        · rw [h1]
          exact List.mem_cons_of_mem _ (List.mem_cons_self _ _)
        · exact List.mem_cons_of_mem _ (List.mem_cons_of_mem _ h1)
      · intro a ha
        rcases List.mem_cons.mp ha with rfl | ha'
        · exact le_trans (le_of_lt hk) (h.2 y (List.mem_cons_self _ _))
        · exact h.2 a ha'
    · simp only [List.foldl_cons, if_neg hk]
      have h := ih x
      constructor
      · rcases List.mem_cons.mp h.1 with h1 | h1
        · rw [h1]
          exact List.mem_cons_self _ _
        · exact List.mem_cons_of_mem _ (List.mem_cons_of_mem _ h1)
      · intro a ha
        rcases List.mem_cons.mp ha with rfl | ha'
        · exact h.2 a (List.mem_cons_self _ _)
        · rcases List.mem_cons.mp ha' with rfl | ha''
          · exact le_trans (le_of_not_lt hk) (h.2 x (List.mem_cons_self _ _))
          · exact h.2 a (List.mem_cons_of_mem _ ha'')

/-- `firstMinBy` returns an element of the list. -/
theorem firstMinBy_mem {α : Type} {key : α → Nat} {l : List α} {m : α}
    (h : firstMinBy key l = some m) : m ∈ l := by
  cases l with
  | nil => cases h
  | cons x xs =>
    have hs := (foldlMin_spec key xs x).1
    simp only [firstMinBy, Option.some.injEq] at h
    rw [h] at hs
    exact hs

/-- `firstMinBy` returns a key-minimal element. -/
theorem firstMinBy_isMin {α : Type} {key : α → Nat} {l : List α} {m : α}
    (h : firstMinBy key l = some m) : ∀ a ∈ l, key m ≤ key a := by
  cases l with
  | nil => cases h
  | cons x xs =>
    have hs := (foldlMin_spec key xs x).2
    simp only [firstMinBy, Option.some.injEq] at h
    rw [h] at hs
    exact hs

/-- `firstMaxBy` returns an element of the list. -/
theorem firstMaxBy_mem {α : Type} {key : α → Nat} {l : List α} {m : α}
    (h : firstMaxBy key l = some m) : m ∈ l := by
  cases l with
  | nil => cases h
  | cons x xs =>
    have hs := (foldlMax_spec key xs x).1
    simp only [firstMaxBy, Option.some.injEq] at h
    rw [h] at hs
    exact hs

/-- `firstMaxBy` returns a key-maximal element. -/
theorem firstMaxBy_isMax {α : Type} {key : α → Nat} {l : List α} {m : α}
    (h : firstMaxBy key l = some m) : ∀ a ∈ l, key a ≤ key m := by
  cases l with
  | nil => cases h
  | cons x xs =>
    have hs := (foldlMax_spec key xs x).2
    simp only [firstMaxBy, Option.some.injEq] at h
    rw [h] at hs
    exact hs

/-- A nonempty list has a `firstMinBy`. -/
theorem firstMinBy_isSome {α : Type} (key : α → Nat) (x : α) (xs : List α) :
    ∃ m, firstMinBy key (x :: xs) = some m :=
  ⟨_, rfl⟩

/-- A nonempty list has a `firstMaxBy`. -/
theorem firstMaxBy_isSome {α : Type} (key : α → Nat) (x : α) (xs : List α) :
    ∃ m, firstMaxBy key (x :: xs) = some m :=
  ⟨_, rfl⟩

/-- If `i` is the strict key-minimum of the list, `firstMinBy` returns `i`
whatever the storage order. -/
theorem firstMinBy_eq_of_strictMin {α : Type} {key : α → Nat} {l : List α}
    {i : α} (hi : i ∈ l) (hmin : ∀ j ∈ l, j ≠ i → key i < key j) :
    firstMinBy key l = some i := by
  cases l with
  | nil => cases hi
  | cons x xs =>
    obtain ⟨m, hm⟩ := firstMinBy_isSome key x xs
    rw [hm]
    by_cases hmi : m = i
    · rw [hmi]
    · have h1 := firstMinBy_isMin hm i hi
      have h2 := hmin m (firstMinBy_mem hm) hmi
      exact absurd (lt_of_lt_of_le h2 h1) (lt_irrefl _)

/-- If `i` is the strict key-maximum of the list, `firstMaxBy` returns `i`
whatever the storage order. -/
theorem firstMaxBy_eq_of_strictMax {α : Type} {key : α → Nat} {l : List α}
    {i : α} (hi : i ∈ l) (hmax : ∀ j ∈ l, j ≠ i → key j < key i) :
    firstMaxBy key l = some i := by
  cases l with
  | nil => cases hi
  | cons x xs =>
    obtain ⟨m, hm⟩ := firstMaxBy_isSome key x xs
    rw [hm]
    by_cases hmi : m = i
    · rw [hmi]
    · have h1 := firstMaxBy_isMax hm i hi
      have h2 := hmax m (firstMaxBy_mem hm) hmi
      exact absurd (lt_of_le_of_lt h1 h2) (lt_irrefl _)

/-- Filtering a pairwise-incompatible list at a predicate that `i` satisfies
yields exactly `[i]`: used with interval disjointness to show the matching
queryset is a singleton. -/
theorem filter_eq_singleton_of_pairwise {α : Type} {R : α → α → Prop}
    {P : α → Bool} {l : List α} {i : α}
    (hR : ∀ x y, R x y → ¬(P x = true ∧ P y = true))
    (hp : List.Pairwise R l) (hi : i ∈ l) (hPi : P i = true) :
    l.filter P = [i] := by
  induction l with
  | nil => cases hi
  | cons x xs ih =>
    rcases List.pairwise_cons.mp hp with ⟨hx, hxs⟩
    rcases List.mem_cons.mp hi with rfl | hi'
    · have hnil : xs.filter P = [] := by
        apply List.filter_eq_nil_iff.mpr
        intro j hj
        intro hPj
        exact hR i j (hx j hj) ⟨hPi, hPj⟩
      rw [List.filter_cons_of_pos hPi, hnil]
    · have hPx : ¬(P x = true) := by
        intro hPx
        exact hR x i (hx i hi') ⟨hPx, hPi⟩
      rw [List.filter_cons_of_neg hPx]
      exact ih hxs hi'

/-- Non-overlap of the effective intervals of a list of rows: no date
satisfies the resolution filter of two distinct rows. -/
def intervalsDisjoint {α : Type} (fromD : α → Nat) (toD : α → Option Nat)
    (l : List α) : Prop :=
  List.Pairwise
    (fun i j => ∀ d : Nat,
      ¬(matchesDate (fromD i) (toD i) d = true ∧
        matchesDate (fromD j) (toD j) d = true)) l

-- ========== EXAMPLE ROWS (for counterexamples and witnesses) ==========

/-- Overlap fixture, identity 1: open-ended from day 0. -/
def exIdA : PostalFacilityIdentity :=
  { postal_facility_identity_id := 1, postal_facility_id := 1,
    effective_from_date := 0, effective_to_date := none,
    facility_name := "A", latitude := none, longitude := none }

/-- Overlap fixture, identity 2: open-ended from day 10 (overlaps
`exIdA` at every date from day 10 on). -/
def exIdB : PostalFacilityIdentity :=
  { postal_facility_identity_id := 2, postal_facility_id := 1,
    effective_from_date := 10, effective_to_date := none,
    facility_name := "B", latitude := none, longitude := none }

/-- The facility the fixtures belong to. -/
def exFacility : PostalFacility :=
  { postal_facility_id := 1, reference_code := "F1",
    latitude := none, longitude := none }

/-- Store holding the two overlapping identities in insertion order A, B. -/
def exDbAB : DB :=
  { facilityIdentities := [exIdA, exIdB], unitIdentities := [],
    affiliations := [], responsibilities := [] }

/-- The same rows inserted in the reversed order B, A. -/
def exDbBA : DB :=
  { facilityIdentities := [exIdB, exIdA], unitIdentities := [],
    affiliations := [], responsibilities := [] }

/-- Disjoint fixture, identity 1: `[0, 10)`. -/
def exIdX : PostalFacilityIdentity :=
  { postal_facility_identity_id := 3, postal_facility_id := 2,
    effective_from_date := 0, effective_to_date := some 10,
    facility_name := "X", latitude := none, longitude := none }

/-- Disjoint fixture, identity 2: `[10, _)`. -/
def exIdY : PostalFacilityIdentity :=
  { postal_facility_identity_id := 4, postal_facility_id := 2,
    effective_from_date := 10, effective_to_date := none,
    facility_name := "Y", latitude := none, longitude := none }

/-- The facility owning the disjoint fixture. -/
def exFacility2 : PostalFacility :=
  { postal_facility_id := 2, reference_code := "F2",
    latitude := none, longitude := none }

/-- Store holding the two disjoint identities. -/
def exDbXY : DB :=
  { facilityIdentities := [exIdX, exIdY], unitIdentities := [],
    affiliations := [], responsibilities := [] }

-- ========== CLAIM C1 ==========

/-- C1 counterexample: facility identities with `effective_from` 0 and 10
both contain day 15, yet `get_identity_at_date` returns the one with the
EARLIER `effective_from` (the Meta ordering on `PostalFacilityIdentity` is
ascending), under both insertion orders - refuting the claim that the later
`effective_from` wins for `PostalFacility`. -/
theorem C1_counterexample :
    matchesDate exIdA.effective_from_date exIdA.effective_to_date 15 = true ∧
    matchesDate exIdB.effective_from_date exIdB.effective_to_date 15 = true ∧
    exIdA.effective_from_date < exIdB.effective_from_date ∧
    exFacility.get_identity_at_date exDbAB 15 = some exIdA ∧
    exFacility.get_identity_at_date exDbBA 15 = some exIdA ∧
    exFacility.get_current_identity exDbAB = some exIdA ∧
    exFacility.get_current_identity exDbBA = some exIdA := by
  refine ⟨rfl, rfl, by decide, ?_, ?_, ?_, ?_⟩ <;> rfl

/-- C1 (amended): the resolvers are deterministic and storage-order
independent, but the winning row differs per entity family: for
`PostalFacility` (ascending Meta ordering) both `get_identity_at_date` and
`get_current_identity` return the matching identity with the EARLIEST
`effective_from_date`, while for `AdministrativeUnit` (descending Meta
ordering) both return the one with the LATEST `effective_from_date`. -/
theorem C1_amended :
    (∀ (f : PostalFacility) (db : DB) (d : Nat) (i : PostalFacilityIdentity),
      i ∈ (f.identities db).filter
        (fun j => matchesDate j.effective_from_date j.effective_to_date d) →
      (∀ j ∈ (f.identities db).filter
          (fun j => matchesDate j.effective_from_date j.effective_to_date d),
        j ≠ i → i.effective_from_date < j.effective_from_date) →
      f.get_identity_at_date db d = some i) ∧
    (∀ (f : PostalFacility) (db : DB) (i : PostalFacilityIdentity),
      i ∈ (f.identities db).filter (fun j => j.effective_to_date.isNone) →
      (∀ j ∈ (f.identities db).filter (fun j => j.effective_to_date.isNone),
        j ≠ i → i.effective_from_date < j.effective_from_date) →
      f.get_current_identity db = some i) ∧
    (∀ (u : AdministrativeUnit) (db : DB) (d : Nat)
        (i : AdministrativeUnitIdentity),
      i ∈ (u.identities db).filter
        (fun j => matchesDate j.effective_from_date j.effective_to_date d) →
      (∀ j ∈ (u.identities db).filter
          (fun j => matchesDate j.effective_from_date j.effective_to_date d),
        j ≠ i → j.effective_from_date < i.effective_from_date) →
      u.get_identity_at_date db d = some i) ∧
    (∀ (u : AdministrativeUnit) (db : DB) (i : AdministrativeUnitIdentity),
      i ∈ (u.identities db).filter (fun j => j.effective_to_date.isNone) →
      (∀ j ∈ (u.identities db).filter (fun j => j.effective_to_date.isNone),
        j ≠ i → j.effective_from_date < i.effective_from_date) →
      u.get_current_identity db = some i) := by
  refine ⟨?_, ?_, ?_, ?_⟩
  · intro f db d i hi hmin
    exact firstMinBy_eq_of_strictMin hi hmin
  · intro f db i hi hmin
    exact firstMinBy_eq_of_strictMin hi hmin
  · intro u db d i hi hmax
    exact firstMaxBy_eq_of_strictMax hi hmax
  · intro u db i hi hmax
    exact firstMaxBy_eq_of_strictMax hi hmax

/-- Witness for C1 (amended) at the overlap fixture: day 15, both
identities match, `exIdA` is the strict earliest, and the facility resolver
picks it even when B is stored first. -/
theorem C1_amended_witness :
    exFacility.get_identity_at_date exDbBA 15 = some exIdA :=
  C1_amended.1 exFacility exDbBA 15 exIdA (by decide) (by decide)

-- ========== CLAIM C2 ==========

/-- C2: right-open interval semantics of identity resolution.  The source
filter treats `effective_from` inclusively, `effective_to` exclusively and
null `effective_to` as unbounded; with pairwise-disjoint intervals the
resolver returns exactly the identity containing the date, and `none` (not
an exception) when no interval contains it - for both entity families. -/
theorem C2_interval_semantics :
    (∀ fromD toD : Nat, matchesDate fromD (some toD) fromD =
      decide (fromD < toD)) ∧
    (∀ fromD toD : Nat, matchesDate fromD (some toD) toD = false) ∧
    (∀ fromD d : Nat, matchesDate fromD none d = decide (fromD ≤ d)) ∧
    (∀ (f : PostalFacility) (db : DB) (d : Nat) (i : PostalFacilityIdentity),
      intervalsDisjoint (fun j => j.effective_from_date)
        (fun j => j.effective_to_date) (f.identities db) →
      i ∈ f.identities db →
      matchesDate i.effective_from_date i.effective_to_date d = true →
      f.get_identity_at_date db d = some i) ∧
    (∀ (f : PostalFacility) (db : DB) (d : Nat),
      (∀ i ∈ f.identities db,
        matchesDate i.effective_from_date i.effective_to_date d = false) →
      f.get_identity_at_date db d = none) ∧
    (∀ (u : AdministrativeUnit) (db : DB) (d : Nat)
        (i : AdministrativeUnitIdentity),
      intervalsDisjoint (fun j => j.effective_from_date)
        (fun j => j.effective_to_date) (u.identities db) →
      i ∈ u.identities db →
      matchesDate i.effective_from_date i.effective_to_date d = true →
      u.get_identity_at_date db d = some i) ∧
    (∀ (u : AdministrativeUnit) (db : DB) (d : Nat),
      (∀ i ∈ u.identities db,
        matchesDate i.effective_from_date i.effective_to_date d = false) →
      u.get_identity_at_date db d = none) := by
  refine ⟨?_, ?_, ?_, ?_, ?_, ?_, ?_⟩
  · intro fromD toD
    simp [matchesDate]
  · intro fromD toD
    simp [matchesDate]
  · intro fromD d
    simp [matchesDate]
  · intro f db d i hdisj hi hm
    have hfilter : (f.identities db).filter
        (fun j => matchesDate j.effective_from_date j.effective_to_date d)
        = [i] :=
      filter_eq_singleton_of_pairwise (fun x y h => h d) hdisj hi hm
    simp only [PostalFacility.get_identity_at_date, hfilter]
    rfl
  · intro f db d hnone
    have hfilter : (f.identities db).filter
        (fun j => matchesDate j.effective_from_date j.effective_to_date d)
        = [] := by
      apply List.filter_eq_nil_iff.mpr
      intro i hi
      simp [hnone i hi]
    simp only [PostalFacility.get_identity_at_date, hfilter]
    rfl
  · intro u db d i hdisj hi hm
    have hfilter : (u.identities db).filter
        (fun j => matchesDate j.effective_from_date j.effective_to_date d)
        = [i] :=
      filter_eq_singleton_of_pairwise (fun x y h => h d) hdisj hi hm
    simp only [AdministrativeUnit.get_identity_at_date, hfilter]
    rfl
  · intro u db d hnone
    have hfilter : (u.identities db).filter
        (fun j => matchesDate j.effective_from_date j.effective_to_date d)
        = [] := by
      apply List.filter_eq_nil_iff.mpr
      intro i hi
      simp [hnone i hi]
    simp only [AdministrativeUnit.get_identity_at_date, hfilter]
    rfl

/-- Witness for C2 at the disjoint fixture `[0,10)`, `[10,_)`: resolving
exactly at the boundary day 10 returns the NEXT identity `exIdY`, never the
expiring `exIdX`. -/
theorem C2_interval_semantics_witness :
    exFacility2.get_identity_at_date exDbXY 10 = some exIdY := by
  refine C2_interval_semantics.2.2.2.1 exFacility2 exDbXY 10 exIdY ?_
    (by decide) (by decide)
  have hids : exFacility2.identities exDbXY = [exIdX, exIdY] := rfl
  unfold intervalsDisjoint
  rw [hids]
  refine List.Pairwise.cons ?_ (List.pairwise_singleton _ _)
  intro j hj d
  rw [List.mem_singleton.mp hj]
  intro hcontra
  simp [exIdX, exIdY, matchesDate] at hcontra
  omega

-- ========== CLAIM C3 ==========

/-- Zeta-reduced form of `Postmark.get_responsible_groups` (the three local
`let`s of the source inlined). -/
theorem get_responsible_groups_eq (p : Postmark) (db : DB) (now : Nat) :
    p.get_responsible_groups db now =
      (db.responsibilities.filter
        (fun r => ((p.current_affiliations db now).map
          (fun a => a.administrative_unit_id)).contains
            r.administrative_unit_id && r.is_active)).map
        (fun r => r.group_id) := rfl

/-- Counting lemma: occurrences of `g` in the mapped keys equal the matching
rows of the underlying list. -/
theorem count_map_eq_length_filter {α : Type} (f : α → Nat) (g : Nat)
    (l : List α) :
    (l.map f).count g = (l.filter (fun r => f r == g)).length := by
  rw [List.count_eq_countP, List.countP_map, List.countP_eq_length_filter]
  rfl

/-- Dedup fixture: two distinct units currently govern facility identity
200, and both units' active responsibilities reference group 7. -/
def exAff1 : JurisdictionalAffiliation :=
  { jurisdictional_affiliation_id := 1, postal_facility_identity_id := 200,
    administrative_unit_id := 1, effective_from_date := 0,
    effective_to_date := none }

/-- Second affiliation of the dedup fixture (unit 2). -/
def exAff2 : JurisdictionalAffiliation :=
  { jurisdictional_affiliation_id := 2, postal_facility_identity_id := 200,
    administrative_unit_id := 2, effective_from_date := 0,
    effective_to_date := none }

/-- Active responsibility: unit 1 managed by group 7. -/
def exResp1 : AdministrativeUnitResponsibility :=
  { administrative_unit_responsibility_id := 1, administrative_unit_id := 1,
    group_id := 7, is_active := true }

/-- Active responsibility: unit 2 managed by the same group 7. -/
def exResp2 : AdministrativeUnitResponsibility :=
  { administrative_unit_responsibility_id := 2, administrative_unit_id := 2,
    group_id := 7, is_active := true }

/-- The postmark of the dedup fixture. -/
def exPostmark3 : Postmark :=
  { postmark_id := 1, postal_facility_identity_id := 200 }

/-- Store for the dedup fixture. -/
def exDbDup : DB :=
  { facilityIdentities := [], unitIdentities := [],
    affiliations := [exAff1, exAff2],
    responsibilities := [exResp1, exResp2] }

/-- C3 counterexample: with two governing units whose active
responsibilities reference the same group 7, `get_responsible_groups`
returns `[7, 7]` - group 7 appears twice, so the result is NOT
deduplicated as the claim states. -/
theorem C3_counterexample :
    exPostmark3.get_responsible_groups exDbDup 50 = [7, 7] ∧
    (exPostmark3.get_responsible_groups exDbDup 50).count 7 = 2 := by
  exact ⟨rfl, rfl⟩

/-- C3 (amended): `get_responsible_groups` returns the empty collection
(not an error) when no active responsibility row references a governing
unit, and otherwise returns ONE entry per matching active responsibility
row - a group responsible through several governing units appears once per
such row, not once overall. -/
theorem C3_amended :
    (∀ (p : Postmark) (db : DB) (now : Nat),
      (∀ r ∈ db.responsibilities, r.is_active = true →
        ((p.current_affiliations db now).map
          (fun a => a.administrative_unit_id)).contains
            r.administrative_unit_id = false) →
      p.get_responsible_groups db now = []) ∧
    (∀ (p : Postmark) (db : DB) (now g : Nat),
      (p.get_responsible_groups db now).count g =
        (db.responsibilities.filter
          (fun r => r.group_id == g &&
            (((p.current_affiliations db now).map
              (fun a => a.administrative_unit_id)).contains
                r.administrative_unit_id && r.is_active))).length) := by
  constructor
  · intro p db now h
    have hnil : db.responsibilities.filter
        (fun r => ((p.current_affiliations db now).map
          (fun a => a.administrative_unit_id)).contains
            r.administrative_unit_id && r.is_active) = [] := by
      apply List.filter_eq_nil_iff.mpr
      intro r hr hcontra
      rw [Bool.and_eq_true] at hcontra
      rw [h r hr hcontra.2] at hcontra
      exact Bool.false_ne_true hcontra.1
    rw [get_responsible_groups_eq, hnil]
    rfl
  · intro p db now g
    rw [get_responsible_groups_eq, count_map_eq_length_filter,
      List.filter_filter]

/-- Witness for C3 (amended), empty branch: with no responsibility rows at
all, the derivation yields the empty list rather than an error. -/
theorem C3_amended_witness :
    exPostmark3.get_responsible_groups
      { facilityIdentities := [], unitIdentities := [],
        affiliations := [exAff1, exAff2], responsibilities := [] } 50 = [] :=
  C3_amended.1 exPostmark3
    { facilityIdentities := [], unitIdentities := [],
      affiliations := [exAff1, exAff2], responsibilities := [] } 50
    (by decide)

-- ========== CLAIM C4 ==========

/-- Future-dated fixture: an affiliation whose `effective_from_date` (100)
is after `now` (50), open-ended, whose unit 1 has an active responsibility
for group 9. -/
def exAffFuture : JurisdictionalAffiliation :=
  { jurisdictional_affiliation_id := 3, postal_facility_identity_id := 100,
    administrative_unit_id := 1, effective_from_date := 100,
    effective_to_date := none }

/-- Closed-today fixture: an affiliation whose interval `[0, 50]`-with-gte
ends exactly at `now` (50); right-open semantics would exclude day 50. -/
def exAffToday : JurisdictionalAffiliation :=
  { jurisdictional_affiliation_id := 4, postal_facility_identity_id := 100,
    administrative_unit_id := 1, effective_from_date := 0,
    effective_to_date := some 50 }

/-- Active responsibility of unit 1, group 9, for the C4 fixtures. -/
def exResp9 : AdministrativeUnitResponsibility :=
  { administrative_unit_responsibility_id := 3, administrative_unit_id := 1,
    group_id := 9, is_active := true }

/-- The postmark of the C4 fixtures. -/
def exPostmark4 : Postmark :=
  { postmark_id := 2, postal_facility_identity_id := 100 }

/-- Store with only the future-dated affiliation. -/
def exDbFuture : DB :=
  { facilityIdentities := [], unitIdentities := [],
    affiliations := [exAffFuture], responsibilities := [exResp9] }

/-- Store with only the affiliation ending exactly at `now`. -/
def exDbToday : DB :=
  { facilityIdentities := [], unitIdentities := [],
    affiliations := [exAffToday], responsibilities := [exResp9] }

/-- C4 counterexample: at `now = 50` an affiliation effective only from day
100 still contributes its unit's group 9 (the source filter has no
`effective_from_date` condition), and an affiliation whose
`effective_to_date` equals `now` also still contributes (the filter uses
`gte`, not the right-open `gt`) - both contradict the claim. -/
theorem C4_counterexample :
    (50 : Nat) < exAffFuture.effective_from_date ∧
    exPostmark4.get_responsible_groups exDbFuture 50 = [9] ∧
    exAffToday.effective_to_date = some 50 ∧
    exPostmark4.get_responsible_groups exDbToday 50 = [9] := by
  exact ⟨by decide, rfl, rfl, rfl⟩

/-- C4 (amended): `get_responsible_groups` considers exactly those
affiliations of the postmark's facility identity whose
`effective_to_date` is null or `>= now`; `effective_from_date` is ignored
entirely, so a future-dated or exactly-today-expiring affiliation still
contributes its unit's active responsibility groups. -/
theorem C4_amended :
    (∀ (p : Postmark) (db : DB) (now : Nat) (a : JurisdictionalAffiliation),
      a ∈ p.current_affiliations db now ↔
        (a ∈ db.affiliations ∧
         a.postal_facility_identity_id = p.postal_facility_identity_id ∧
         (a.effective_to_date = none ∨
          ∃ t, a.effective_to_date = some t ∧ now ≤ t))) ∧
    (∀ (p : Postmark) (db : DB) (now : Nat)
        (r : AdministrativeUnitResponsibility),
      r ∈ db.responsibilities → r.is_active = true →
      r.administrative_unit_id ∈ (p.current_affiliations db now).map
        (fun a => a.administrative_unit_id) →
      r.group_id ∈ p.get_responsible_groups db now) := by
  constructor
  · intro p db now a
    simp only [Postmark.current_affiliations, List.mem_filter,
      Bool.and_eq_true, beq_iff_eq]
    cases h : a.effective_to_date with
    | none => simp [h]
    | some t => simp [h]
  · intro p db now r hr hact hmem
    rw [get_responsible_groups_eq]
    apply List.mem_map_of_mem
    apply List.mem_filter.mpr
    refine ⟨hr, ?_⟩
    rw [Bool.and_eq_true]
    refine ⟨?_, hact⟩
    exact List.elem_iff.mpr hmem

/-- Witness for C4 (amended) at the future-dated fixture: the affiliation
starting at day 100 is selected at `now = 50` and group 9 is derived. -/
theorem C4_amended_witness :
    (exAffFuture ∈ exPostmark4.current_affiliations exDbFuture 50 ↔
      (exAffFuture ∈ exDbFuture.affiliations ∧
       exAffFuture.postal_facility_identity_id =
         exPostmark4.postal_facility_identity_id ∧
       (exAffFuture.effective_to_date = none ∨
        ∃ t, exAffFuture.effective_to_date = some t ∧ 50 ≤ t))) ∧
    (9 : Nat) ∈ exPostmark4.get_responsible_groups exDbFuture 50 :=
  ⟨C4_amended.1 exPostmark4 exDbFuture 50 exAffFuture,
   C4_amended.2 exPostmark4 exDbFuture 50 exResp9 (by decide) (by decide)
     (by decide)⟩

-- ========== CLAIM C5 ==========

/-- An authenticated request principal in group 7, for witnesses. -/
def exUser : RequestUser :=
  { is_authenticated := true, groups := [7] }

/-- Store for the fail-closed branch: affiliations exist but there are no
responsibility rows at all, so the responsible-group set is empty. -/
def exDbNoResp : DB :=
  { facilityIdentities := [], unitIdentities := [],
    affiliations := [exAff1, exAff2], responsibilities := [] }

/-- C5: `IsResponsibleForRegion.has_object_permission` allows every
GET/HEAD/OPTIONS request; a mutating request on a `Postmark` is permitted
exactly when some group of the principal lies in the postmark's
responsible groups; and with an empty responsible-group set every mutating
request on the postmark is denied (fail closed), whoever the principal. -/
theorem C5_permission :
    (∀ (m : HttpMethod) (u : RequestUser) (obj : ApiObject) (db : DB)
        (now : Nat),
      isReadMethod m = true →
      IsResponsibleForRegion.has_object_permission m u obj db now = true) ∧
    (∀ (m : HttpMethod) (u : RequestUser) (p : Postmark) (db : DB)
        (now : Nat),
      isReadMethod m = false →
      (IsResponsibleForRegion.has_object_permission m u
          (ApiObject.postmark p) db now = true ↔
        ∃ g, g ∈ u.groups ∧ g ∈ p.get_responsible_groups db now)) ∧
    (∀ (m : HttpMethod) (u : RequestUser) (p : Postmark) (db : DB)
        (now : Nat),
      isReadMethod m = false →
      p.get_responsible_groups db now = [] →
      IsResponsibleForRegion.has_object_permission m u
        (ApiObject.postmark p) db now = false) := by
  refine ⟨?_, ?_, ?_⟩
  · intro m u obj db now h
    simp [IsResponsibleForRegion.has_object_permission, h]
  · intro m u p db now h
    simp only [IsResponsibleForRegion.has_object_permission, h,
      Bool.false_eq_true, if_false, List.any_eq_true]
    constructor
    · rintro ⟨g, hg, hc⟩
      exact ⟨g, hg, List.elem_iff.mp hc⟩
    · rintro ⟨g, hg, hc⟩
      exact ⟨g, hg, List.elem_iff.mpr hc⟩
  · intro m u p db now h hempty
    simp [IsResponsibleForRegion.has_object_permission, h, hempty]

/-- Witness for C5 at concrete requests: a GET on the dedup fixture is
allowed, a POST by a group-7 member whose groups intersect the responsible
set is allowed, and a POST against a postmark with an empty
responsible-group set is denied. -/
theorem C5_permission_witness :
    IsResponsibleForRegion.has_object_permission HttpMethod.get exUser
      (ApiObject.postmark exPostmark3) exDbDup 50 = true ∧
    IsResponsibleForRegion.has_object_permission HttpMethod.post exUser
      (ApiObject.postmark exPostmark3) exDbDup 50 = true ∧
    IsResponsibleForRegion.has_object_permission HttpMethod.post exUser
      (ApiObject.postmark exPostmark3) exDbNoResp 50 = false :=
  ⟨C5_permission.1 HttpMethod.get exUser (ApiObject.postmark exPostmark3)
      exDbDup 50 rfl,
   (C5_permission.2.1 HttpMethod.post exUser exPostmark3 exDbDup 50
      rfl).mpr ⟨7, by decide, by decide⟩,
   C5_permission.2.2 HttpMethod.post exUser exPostmark3 exDbNoResp 50
      rfl rfl⟩

-- ========== CLAIM C6 ==========

/-- The administrative unit of the rename fixture. -/
def exUnit : AdministrativeUnit :=
  { administrative_unit_id := 1, reference_code := "U1" }

/-- Identity before the rename: `[0, 10)`, called "Old". -/
def exUnitIdOld : AdministrativeUnitIdentity :=
  { administrative_unit_identity_id := 1, administrative_unit_id := 1,
    effective_from_date := 0, effective_to_date := some 10,
    unit_name := "Old" }

/-- Identity after the rename: `[10, _)`, called "New". -/
def exUnitIdNew : AdministrativeUnitIdentity :=
  { administrative_unit_identity_id := 2, administrative_unit_id := 1,
    effective_from_date := 10, effective_to_date := none,
    unit_name := "New" }

/-- Affiliation that began at day 0, before the rename at day 10. -/
def exAffC6 : JurisdictionalAffiliation :=
  { jurisdictional_affiliation_id := 5, postal_facility_identity_id := 300,
    administrative_unit_id := 1, effective_from_date := 0,
    effective_to_date := none }

/-- Store of the rename fixture (identities stored newest first). -/
def exDbC6 : DB :=
  { facilityIdentities := [], unitIdentities := [exUnitIdNew, exUnitIdOld],
    affiliations := [exAffC6], responsibilities := [] }

/-- C6: two-mode jurisdiction-name resolution.  For a unit renamed at D2
after an affiliation began at D1 < D2, the historical mode
(`JurisdictionalAffiliation.get_administrative_unit_identity`, resolving at
the affiliation's own `effective_from_date`) yields the pre-rename
identity, while the current mode (the serializer's current-identity name
lookup) yields the post-rename name - two distinct operations. -/
theorem C6_two_modes :
    ∀ (u : AdministrativeUnit) (db : DB) (a : JurisdictionalAffiliation)
      (i1 i2 : AdministrativeUnitIdentity) (D1 D2 : Nat),
      D1 < D2 →
      i1.effective_from_date = D1 → i1.effective_to_date = some D2 →
      i2.effective_from_date = D2 → i2.effective_to_date = none →
      a.effective_from_date = D1 →
      (u.identities db = [i1, i2] ∨ u.identities db = [i2, i1]) →
      a.get_administrative_unit_identity u db = some i1 ∧
      AdministrativeUnitResponsibilitySerializer.get_administrative_unit_name
        u db = i2.unit_name := by
  intro u db a i1 i2 D1 D2 hlt h1f h1t h2f h2t haf hids
  have hm1 : matchesDate i1.effective_from_date i1.effective_to_date D1
      = true := by
    rw [h1f, h1t]
    simp [matchesDate, hlt]
  have hm2 : matchesDate i2.effective_from_date i2.effective_to_date D1
      = false := by
    rw [h2f, h2t]
    simp [matchesDate]
    omega
  constructor
  · rcases hids with h | h <;>
      simp [JurisdictionalAffiliation.get_administrative_unit_identity,
        AdministrativeUnit.get_identity_at_date, haf, h, List.filter_cons,
        hm1, hm2, firstMaxBy]
  · rcases hids with h | h <;>
      simp [AdministrativeUnitResponsibilitySerializer.get_administrative_unit_name,
        AdministrativeUnit.get_current_identity, h, List.filter_cons,
        h1t, h2t, firstMaxBy]

/-- Witness for C6 at the rename fixture: the affiliation began at day 0,
the unit was renamed "Old" to "New" at day 10; the historical mode returns
the "Old" identity and the current mode returns "New". -/
theorem C6_two_modes_witness :
    exAffC6.get_administrative_unit_identity exUnit exDbC6
        = some exUnitIdOld ∧
    AdministrativeUnitResponsibilitySerializer.get_administrative_unit_name
        exUnit exDbC6 = exUnitIdNew.unit_name :=
  C6_two_modes exUnit exDbC6 exAffC6 exUnitIdOld exUnitIdNew 0 10
    (by decide) rfl rfl rfl rfl rfl (Or.inr (by decide))

-- ========== CLAIM C7 ==========

/-- C7: frame property of the two temporal tracks.  Renaming a facility
identity changes neither which affiliations match a date, nor the unit
identity an affiliation yields, nor the derived responsible groups; and
replacing the affiliation table (adding, deleting or modifying rows)
changes neither `get_identity_at_date` nor `get_current_identity` for any
facility. -/
theorem C7_independence :
    (∀ (db : DB) (identityId : Nat) (n : String) (p : Postmark) (now : Nat),
      p.current_affiliations (renameFacilityIdentity db identityId n) now =
        p.current_affiliations db now) ∧
    (∀ (db : DB) (identityId : Nat) (n : String)
        (a : JurisdictionalAffiliation) (u : AdministrativeUnit),
      a.get_administrative_unit_identity u
          (renameFacilityIdentity db identityId n) =
        a.get_administrative_unit_identity u db) ∧
    (∀ (db : DB) (identityId : Nat) (n : String) (p : Postmark) (now : Nat),
      p.get_responsible_groups (renameFacilityIdentity db identityId n) now =
        p.get_responsible_groups db now) ∧
    (∀ (db : DB) (l : List JurisdictionalAffiliation) (f : PostalFacility)
        (d : Nat),
      f.get_identity_at_date (setAffiliations db l) d =
        f.get_identity_at_date db d) ∧
    (∀ (db : DB) (l : List JurisdictionalAffiliation) (f : PostalFacility),
      f.get_current_identity (setAffiliations db l) =
        f.get_current_identity db) :=
  ⟨fun _ _ _ _ _ => rfl, fun _ _ _ _ _ => rfl, fun _ _ _ _ _ => rfl,
   fun _ _ _ _ => rfl, fun _ _ _ => rfl⟩

-- ========== CLAIM C8 ==========

/-- What one import file contributes to the store under the library's
dataset-level savepoint semantics: all its rows when every row is clean,
nothing when any row errors. -/
def importContribution (apply : Nat → AuthEvent) (rows : List ImportRow) :
    Store :=
  if rows.all (fun r => r.ok) then rows.map (fun r => apply r.val) else []

/-- Contribution of an optional file (skipped when no path was given). -/
def optionContribution (apply : Nat → AuthEvent) :
    Option (List ImportRow) → Store
  | none => []
  | some rows => importContribution apply rows

/-- Appending one write per row via `foldl` is appending the mapped rows. -/
theorem foldl_append_map (apply : Nat → AuthEvent) (rows : List ImportRow) :
    ∀ s : Store,
      rows.foldl (fun st r => st ++ [apply r.val]) s =
        s ++ rows.map (fun r => apply r.val) := by
  induction rows with
  | nil =>
    intro s
    simp
  | cons r rs ih =>
    intro s
    simp only [List.foldl_cons, List.map_cons]
    rw [ih]
    simp

/-- A non-dry-run `import_data` leaves the prior store intact and appends
exactly the file's contribution. -/
theorem import_data_false_fst (apply : Nat → AuthEvent)
    (rows : List ImportRow) (s : Store) :
    (import_data apply rows false s).1 = s ++ importContribution apply rows := by
  unfold import_data importContribution
  rw [List.all_eq_not_any_not]
  cases h : rows.any (fun r => !r.ok) with
  | false => simp [h, foldl_append_map]
  | true => simp [h]

/-- Closed form of the email phase of the restore command (non-dry-run). -/
theorem handleEmailsPhase_false (e : Option (List ImportRow)) (s : Store) :
    handleEmailsPhase false e s = s ++ optionContribution AuthEvent.emailRow e := by
  cases e with
  | none => simp [handleEmailsPhase, optionContribution]
  | some rows => simp [handleEmailsPhase, optionContribution, import_data_false_fst]

/-- Closed form of the user-then-email phases of the restore command
(non-dry-run). -/
theorem handleUsersPhase_false (u : List ImportRow)
    (e : Option (List ImportRow)) (s : Store) :
    handleUsersPhase false u e s =
      (s ++ importContribution AuthEvent.userRow u) ++
        optionContribution AuthEvent.emailRow e := by
  unfold handleUsersPhase
  simp [handleEmailsPhase_false, import_data_false_fst]

/-- Closed form of a whole non-dry-run restore run. -/
theorem handle_false_eq (g : Option (List ImportRow)) (u : List ImportRow)
    (e : Option (List ImportRow)) (s : Store) :
    Command.handle false g u e s =
      ((s ++ optionContribution AuthEvent.groupRow g) ++
        importContribution AuthEvent.userRow u) ++
        optionContribution AuthEvent.emailRow e := by
  cases g with
  | none => simp [Command.handle, handleUsersPhase_false, optionContribution]
  | some rows =>
    simp [Command.handle, handleUsersPhase_false, import_data_false_fst,
      optionContribution]

/-- C8 counterexample: a non-dry-run restore whose groups file imports
cleanly but whose users file contains a failing row still commits the
group row - the store is NOT left unchanged, refuting all-or-nothing
atomicity across the three files. -/
theorem C8_counterexample :
    ([⟨2, false⟩] : List ImportRow).any (fun r => !r.ok) = true ∧
    Command.handle false (some [⟨1, true⟩]) [⟨2, false⟩] none [] =
      [AuthEvent.groupRow 1] ∧
    Command.handle false (some [⟨1, true⟩]) [⟨2, false⟩] none [] ≠
      ([] : Store) :=
  ⟨rfl, rfl, by decide⟩

/-- C8 (amended): atomicity holds per file, not across files.  A non-dry-run
restore appends, in order, the groups file's rows (all of them when every
row is clean, none when any row errors), then likewise the users file's,
then the email file's; a failing row erases only its own file's
contribution while every other file still commits. -/
theorem C8_per_file_atomicity :
    ∀ (g e : Option (List ImportRow)) (u : List ImportRow) (s : Store),
      Command.handle false g u e s =
        ((s ++ optionContribution AuthEvent.groupRow g) ++
          importContribution AuthEvent.userRow u) ++
          optionContribution AuthEvent.emailRow e :=
  fun g e u s => handle_false_eq g u e s

-- ========== CLAIM C9 ==========

/-- Seeding phase of a write: groups (0) before users (1) before email
addresses (2). -/
def eventPhase : AuthEvent → Nat
  | .groupRow _ => 0
  | .userRow _ => 1
  | .emailRow _ => 2

/-- Every write contributed by one file carries that file's phase. -/
theorem mem_importContribution_phase {apply : Nat → AuthEvent} {c : Nat}
    (hc : ∀ v, eventPhase (apply v) = c) (rows : List ImportRow) :
    ∀ x ∈ importContribution apply rows, eventPhase x = c := by
  intro x hx
  unfold importContribution at hx
  split at hx
  · obtain ⟨r, _, rfl⟩ := List.mem_map.mp hx
    exact hc r.val
  · cases hx

/-- Phase bound extended to an optional file. -/
theorem mem_optionContribution_phase {apply : Nat → AuthEvent} {c : Nat}
    (hc : ∀ v, eventPhase (apply v) = c) (o : Option (List ImportRow)) :
    ∀ x ∈ optionContribution apply o, eventPhase x = c := by
  cases o with
  | none =>
    intro x hx
    cases hx
  | some rows => exact mem_importContribution_phase hc rows

/-- A list of writes of one phase is phase-monotone. -/
theorem pairwise_of_const_phase {c : Nat} {l : Store}
    (h : ∀ x ∈ l, eventPhase x = c) :
    List.Pairwise (fun a b => eventPhase a ≤ eventPhase b) l := by
  induction l with
  | nil => exact List.Pairwise.nil
  | cons x xs ih =>
    refine List.Pairwise.cons ?_ (ih fun y hy => h y (List.mem_cons_of_mem _ hy))
    intro y hy
    rw [h x (List.mem_cons_self _ _), h y (List.mem_cons_of_mem _ hy)]

/-- C9: in every (non-dry-run) restore run, the writes appended to the
store are phase-monotone: every group row precedes every user row, and
every email-address row follows every user row - group references of a
user row are imported before the users phase runs. -/
theorem C9_seeding_order :
    ∀ (g e : Option (List ImportRow)) (u : List ImportRow) (s : Store),
      List.Pairwise (fun a b => eventPhase a ≤ eventPhase b)
        ((Command.handle false g u e s).drop s.length) := by
  intro g e u s
  rw [handle_false_eq, List.append_assoc, List.append_assoc, List.drop_left]
  have hg : ∀ x ∈ optionContribution AuthEvent.groupRow g, eventPhase x = 0 :=
    @mem_optionContribution_phase AuthEvent.groupRow 0 (fun _ => rfl) g
  have hu : ∀ x ∈ importContribution AuthEvent.userRow u, eventPhase x = 1 :=
    @mem_importContribution_phase AuthEvent.userRow 1 (fun _ => rfl) u
  have he : ∀ x ∈ optionContribution AuthEvent.emailRow e, eventPhase x = 2 :=
    @mem_optionContribution_phase AuthEvent.emailRow 2 (fun _ => rfl) e
  refine List.pairwise_append.mpr
    ⟨pairwise_of_const_phase hg, ?_, ?_⟩
  · refine List.pairwise_append.mpr
      ⟨pairwise_of_const_phase hu, pairwise_of_const_phase he, ?_⟩
    intro a ha b hb
    rw [hu a ha, he b hb]
    exact Nat.le_of_lt (by decide)
  · intro a ha b hb
    rw [hg a ha]
    exact Nat.zero_le _

-- ========== CLAIM C10 ==========

/-- Facility with fallback coordinates, for the C10 witness. -/
def exFacilityCoord : PostalFacility :=
  { postal_facility_id := 9, reference_code := "F9",
    latitude := some 5, longitude := some 6 }

/-- Identity whose override latitude is exactly zero (a facility on the
equator): Python truthiness treats it as absent. -/
def exIdZero : PostalFacilityIdentity :=
  { postal_facility_identity_id := 9, postal_facility_id := 9,
    effective_from_date := 0, effective_to_date := none,
    facility_name := "Z", latitude := some 0, longitude := some 4 }

/-- Identity with two nonzero override coordinates. -/
def exIdOwn : PostalFacilityIdentity :=
  { postal_facility_identity_id := 10, postal_facility_id := 9,
    effective_from_date := 0, effective_to_date := none,
    facility_name := "O", latitude := some 2, longitude := some 3 }

/-- C10: `get_coordinates` returns the identity's own pair only when both
override values are truthy; a null or exactly-zero override coordinate
(either of them) makes it fall back to the parent facility's pair. -/
theorem C10_coordinates :
    (∀ (i : PostalFacilityIdentity) (f : PostalFacility),
      decimalTruthy i.latitude = true → decimalTruthy i.longitude = true →
      i.get_coordinates f = (i.latitude, i.longitude)) ∧
    (∀ (i : PostalFacilityIdentity) (f : PostalFacility),
      (i.latitude = none ∨ i.latitude = some 0 ∨
       i.longitude = none ∨ i.longitude = some 0) →
      i.get_coordinates f = (f.latitude, f.longitude)) := by
  constructor
  · intro i f h1 h2
    simp [PostalFacilityIdentity.get_coordinates, h1, h2]
  · intro i f h
    have hfalse : (decimalTruthy i.latitude && decimalTruthy i.longitude)
        = false := by
      rcases h with h | h | h | h <;> simp [decimalTruthy, h]
    simp [PostalFacilityIdentity.get_coordinates, hfalse]

/-- Witness for C10: a zero latitude override falls back to the facility's
coordinates, while a fully nonzero override is returned as is. -/
theorem C10_coordinates_witness :
    exIdZero.get_coordinates exFacilityCoord =
      (exFacilityCoord.latitude, exFacilityCoord.longitude) ∧
    exIdOwn.get_coordinates exFacilityCoord =
      (exIdOwn.latitude, exIdOwn.longitude) :=
  ⟨C10_coordinates.2 exIdZero exFacilityCoord (Or.inr (Or.inl rfl)),
   C10_coordinates.1 exIdOwn exFacilityCoord rfl rfl⟩

end WoCo
